import Mathlib

/-!
Verification of the Hercules DJ Console input-decoding core
(`src/mixxx/src/herculeslinux.cpp`).

The development shallowly embeds the per-event decode logic of the driver:

* `jogUnwrap` — the jog-wheel delta unwrapping shared (textually identical)
  by `consoleEvent` (libdjconsole variant, cases `LEFT_JOG`/`RIGHT_JOG`) and
  `getNextEvent` (evdev variant, cases `kiHerculesLeftJog`/`kiHerculesRightJog`).
* `pitchChange` — the revised `HerculesLinux::PitchChange` (the variant compiled
  when `__LIBDJCONSOLE__` is not defined, lines 1115–1151).
* `pitchChangeLegacy` — the legacy `HerculesLinux::PitchChange` (lines 498–532,
  compiled with `__LIBDJCONSOLE__` and `__THOMAS_HERC__`, so the
  `pitchAdjustStep = delta` branch).
* `consoleEvent` — the libdjconsole event handler
  `HerculesLinux::consoleEvent(int first, int second)` under `__THOMAS_HERC__`,
  as a state-passing function emitting a list of sink/LED writes.
* `getNextEventAbs` — the `EV_ABS` dispatch of the evdev
  `HerculesLinux::getNextEvent`.

C++ `int` values are modelled as `Int`; C++ `double` values that the claims
touch are produced only by exact operations on small integers and are modelled
as `ℚ`.  The numeric values of the device control-code constants (`LEFT_VOL`,
`LEFT_JOG`, …, from headers that are not part of the provided sources) are
abstracted by an inductive type of control ids: the C++ `switch` statements
require all case labels to be pairwise distinct integers, which is exactly what
the inductive representation provides; the literal codes 100–103 get their own
constructors, id 0 (filtered by `if (first != 0)`) gets the constructor `zero`,
and any id matching no case is represented by `other n`.
-/

/-- Jog-wheel delta unwrapping, translated from the `LEFT_JOG` case of
`HerculesLinux::consoleEvent` (the same statements appear in `RIGHT_JOG` and in
the `kiHerculesLeftJog`/`kiHerculesRightJog` cases of
`HerculesLinux::getNextEvent`):

    iDiff = 0;
    if (m_dJogLeftOld >= 0) iDiff = second - m_dJogLeftOld;
    if (iDiff < -200)       iDiff += 256;
    else if (iDiff > 200)   iDiff -= 256;
    m_dJogLeftOld = second;

Returns the corrected delta together with the new stored previous value. -/
def jogUnwrap (old : Int) (current : Int) : Int × Int :=
  let iDiff : Int := if 0 ≤ old then current - old else 0
  let iDiff : Int :=
    if iDiff < -200 then iDiff + 256
    else if iDiff > 200 then iDiff - 256
    else iDiff
  (iDiff, current)

/-- The `DeltaUnwrapper.unwrap` contract transcribed from the specification
(§4.1): delta 0 on a missing previous sample, otherwise the raw difference
corrected by ±256 when it falls outside [−200, 200]; the new previous value is
the current value unconditionally. -/
def unwrapSpec (previous : Option Int) (current : Int) : Int × Int :=
  match previous with
  | none => (0, current)
  | some p =>
      let raw := current - p
      let d : Int :=
        if raw < -200 then raw + 256
        else if raw > 200 then raw - 256
        else raw
      (d, current)

/-- Revised `HerculesLinux::PitchChange` (non-libdjconsole variant,
lines 1115–1151).  State is the pair (`m_iPitchPrevious`, `m_iPitchOffset`),
passed here as the two `Int` arguments; the result is the returned pitch
percentage together with the new (previous, offset) pair. -/
def pitchChange (ev : Int) (prev : Int) (off : Int) : ℚ × Int × Int :=
  let off : Int := if off = -9999 then 127 - ev else off
  let off : Int :=
    if prev + off = 255 ∧ prev < ev then 255 - ev
    else if prev = 255 ∧ ev = 0 then 255 + off
    else if ev = 255 ∧ prev = 0 ∧ 0 ≤ off then off - 255
    else if ev < prev ∧ prev + off = 0 then -ev
    else off
  let prev : Int := ev
  ((((prev : ℚ) + (off : ℚ)) - 1/2) / 2, prev, off)

/-- First rollover rule (of the four listed in spec §4.3) whose guard holds, in
the listed order; `none` when no rule fires.  The guards are those of the
specification, read on the post-sentinel offset. -/
def firedRule (ev : Int) (prev : Int) (off : Int) : Option (Fin 4) :=
  if prev + off = 255 ∧ prev < ev then some 0
  else if prev = 255 ∧ ev = 0 then some 1
  else if ev = 255 ∧ prev = 0 ∧ 0 ≤ off then some 2
  else if ev < prev ∧ prev + off = 0 then some 3
  else none

/-- Offset produced by each rollover rule of spec §4.3. -/
def ruleNewOffset (i : Fin 4) (ev : Int) (off : Int) : Int :=
  match i with
  | 0 => 255 - ev
  | 1 => 255 + off
  | 2 => off - 255
  | 3 => -ev

/-- The revised PitchOffsetTracker update transcribed from the specification
(§4.3): consume the −9999 sentinel, let at most one rollover rule fire (the
first whose guard holds, so the rules are mutually exclusive per event), set
previous to the raw value unconditionally, and output
`((previous + offset) − 0.5) / 2`. -/
def pitchChangeSpec (ev : Int) (prev : Int) (off : Int) : ℚ × Int × Int :=
  let off : Int := if off = -9999 then 127 - ev else off
  let off : Int :=
    match firedRule ev prev off with
    | some i => ruleNewOffset i ev off
    | none => off
  ((((ev : ℚ) + (off : ℚ)) - 1/2) / 2, ev, off)

/-- Legacy `HerculesLinux::PitchChange` (lines 498–532; the variant that the
libdjconsole `consoleEvent` calls).  Compiled with `__THOMAS_HERC__`, so
`pitchAdjustStep = delta`.  In this variant `m_iPitchOffset` stores the last raw
value and `m_iPitchPrevious` the clamped pitch output. -/
def pitchChangeLegacy (ev : Int) (prev : Int) (off : Int) : ℚ × Int × Int :=
  if prev < 0 then ((64 : ℚ), 64, ev)
  else
    let delta : Int := ev - off
    let delta : Int := if 240 ≤ delta then (255 - delta) * (-1) else delta
    let delta : Int := if delta ≤ -240 then 255 + delta else delta
    let off : Int := ev
    let step : Int := delta
    let prev : Int :=
      if (0 < step ∧ prev + step < 128) ∨ (step < 0 ∧ 0 < prev + step) then prev + step
      else if 0 < step then 127
      else if step < 0 then 0
      else prev
    ((prev : ℚ), prev, off)

/-- Device control codes appearing as `case` labels in the two `switch(first)`
statements of the libdjconsole `HerculesLinux::consoleEvent` (compiled with
`__THOMAS_HERC__`).  The numeric values of the named constants come from
headers not included in the provided sources; C++ requires all case labels of a
switch to be pairwise distinct, which the inductive representation captures.
`zero` is the id 0 (discarded by the `if (first != 0)` guard), `c100`–`c103`
are the literal labels of the headphone-selector cases, and `other n` stands
for any id that matches no case label. -/
inductive ControlId where
  | leftVol | rightVol | xfader
  | leftPlay | rightPlay | leftCue | rightCue
  | leftMasterTempo | rightMasterTempo
  | leftAutoBeat | rightAutoBeat
  | leftMonitor | rightMonitor
  | leftPitchDown | leftPitchUp | rightPitchDown | rightPitchUp
  | leftSkipBack | leftSkipForward | rightSkipBack | rightSkipForward
  | leftHigh | leftMid | leftBass | rightHigh | rightMid | rightBass
  | left1 | left2 | left3 | right1 | right2 | right3
  | leftJog | rightJog | leftPitch | rightPitch
  | c100 | c101 | c102 | c103
  | zero
  | other (n : Int)
deriving DecidableEq

/-- Logical control-sink destinations (the `m_pControlObject…` members written
through `sendEvent` / `sendButtonEvent`). -/
inductive Ctl where
  | leftVolume | rightVolume | crossfade
  | leftBtnPlay | rightBtnPlay
  | leftBtnPitchBendMinus | leftBtnPitchBendPlus
  | rightBtnPitchBendMinus | rightBtnPitchBendPlus
  | leftBtnTrackPrev | leftBtnTrackNext | rightBtnTrackPrev | rightBtnTrackNext
  | leftTreble | leftMiddle | leftBass | rightTreble | rightMiddle | rightBass
  | leftBtnCue | rightBtnCue | leftBtnCueAndStop | rightBtnCueAndStop
  | leftBtnMasterTempo | rightBtnMasterTempo
  | leftBtnHeadphone | rightBtnHeadphone
  | leftPitch | rightPitch
  | leftBtnAutobeat | rightBtnAutobeat
  | leftJog | rightJog
deriving DecidableEq

/-- LED targets of `djc->Leds.setBit`: either a control code (the early-return
and button-case writes pass `first` itself) or one of the FX/CUE/LOOP lamp
constants used by the calibration cases. -/
inductive Led where
  | ofCtlId (c : ControlId)
  | leftFX | leftFXCue | leftLoop | rightFX | rightFXCue | rightLoop
deriving DecidableEq

/-- One externally visible write of the event handlers: a continuous-sink
write (`sendEvent`), a button-edge sink write (`sendButtonEvent`), or an LED
update (`djc->Leds.setBit`). -/
inductive Output where
  | cont (c : Ctl) (value : ℚ)
  | button (c : Ctl) (pressed : Bool)
  | led (l : Led) (lit : Bool)
deriving DecidableEq

/-- Whether an output is a continuous-sink write. -/
def Output.isCont : Output → Bool
  | .cont _ _ => true
  | _ => false

/-- Whether an output is a button-edge sink write. -/
def Output.isButton : Output → Bool
  | .button _ _ => true
  | _ => false

/-- The continuous-sink writes of an output list, in order. -/
def contWrites (l : List Output) : List Output := l.filter Output.isCont

/-- The button-edge sink writes of an output list, in order. -/
def buttonWrites (l : List Output) : List Output := l.filter Output.isButton

/-- The sink writes (continuous or button, excluding LED updates) of an output
list, in order. -/
def sinkWrites (l : List Output) : List Output :=
  l.filter fun o => o.isCont || o.isButton

/-- The four headphone-selector states (`kiHerculesHeadphoneSplit` /
`…Mix` / `…DeckA` / `…DeckB`, tracked in `m_iHerculesHeadphonesSelection`). -/
inductive HSel where
  | split | mix | deckA | deckB
deriving DecidableEq

/-- Mutable driver state touched by the libdjconsole
`HerculesLinux::consoleEvent`, plus the two play-proxy reads (external
`ControlObject` values consulted by the CUE cases and left unchanged by the
handler). -/
structure HState where
  /-- `m_dJogLeftOld`: last raw left-jog value, −1 sentinel from construction. -/
  jogLeftOld : Int
  /-- `m_dJogRightOld`. -/
  jogRightOld : Int
  /-- `m_iJogLeft`: accumulated left-jog delta, drained by the `run` loop. -/
  jogLeftAcc : Int
  /-- `m_iJogRight`. -/
  jogRightAcc : Int
  /-- `m_iPitchLeft` (legacy PitchChange previous/pitch value, −1 at construction). -/
  pitchLeft : Int
  /-- `m_iPitchRight`. -/
  pitchRight : Int
  /-- `m_iPitchOffsetLeft` (legacy PitchChange stored raw value). -/
  pitchOffsetLeft : Int
  /-- `m_iPitchOffsetRight`. -/
  pitchOffsetRight : Int
  /-- `m_iHerculesHeadphonesSelection`. -/
  headphoneSel : HSel
  /-- `m_bHeadphoneLeft`. -/
  hpLeft : Bool
  /-- `m_bHeadphoneRight`. -/
  hpRight : Bool
  /-- `m_bMasterTempoLeft`. -/
  masterTempoLeft : Bool
  /-- `m_bMasterTempoRight`. -/
  masterTempoRight : Bool
  /-- Calibration divisor of `m_pRotaryLeft` (set by the LEFT_1/2/3 cases). -/
  calibLeft : Int
  /-- Calibration divisor of `m_pRotaryRight`. -/
  calibRight : Int
  /-- `m_pControlObjectLeftBtnPlayProxy->get()` (external, read-only here). -/
  leftPlayProxy : Bool
  /-- `m_pControlObjectRightBtnPlayProxy->get()` (external, read-only here). -/
  rightPlayProxy : Bool
deriving DecidableEq

/-- First `switch(first)` of the libdjconsole `consoleEvent`: selects the LED
to light for the plain button cases (`led = first`), and for the LEFT_1…3 /
RIGHT_1…3 cases sets the jog calibration and rewrites the FX/FX-CUE/LOOP lamps.
Returns (new state, LED writes emitted inside the switch, the `led` variable as
an optional id). -/
def firstSwitch (s : HState) (first : ControlId) : HState × List Output × Option ControlId :=
  match first with
  | .leftPlay | .leftCue | .leftMasterTempo | .leftAutoBeat | .leftMonitor
  | .rightPlay | .rightCue | .rightMasterTempo | .rightAutoBeat | .rightMonitor =>
      (s, [], some first)
  | .left1 =>
      ({ s with calibLeft := 512 },
        [.led .leftFX true, .led .leftFXCue false, .led .leftLoop false], none)
  | .left2 =>
      ({ s with calibLeft := 256 },
        [.led .leftFX false, .led .leftFXCue true, .led .leftLoop false], none)
  | .left3 =>
      ({ s with calibLeft := 64 },
        [.led .leftFX false, .led .leftFXCue false, .led .leftLoop true], none)
  | .right1 =>
      ({ s with calibRight := 512 },
        [.led .rightFX true, .led .rightFXCue false, .led .rightLoop false], none)
  | .right2 =>
      ({ s with calibRight := 256 },
        [.led .rightFX false, .led .rightFXCue true, .led .rightLoop false], none)
  | .right3 =>
      ({ s with calibRight := 64 },
        [.led .rightFX false, .led .rightFXCue false, .led .rightLoop true], none)
  | _ => (s, [], none)

/-- Second `switch(first)` of the libdjconsole `consoleEvent`: the sink-write
dispatch (volume/EQ/crossfade scaling, button edges, headphone-selector cases
100–103, jog unwrapping, legacy pitch).  `v` is the event value `second`
(nonzero here: value-0 events were already consumed by the early return). -/
def secondSwitch (s : HState) (first : ControlId) (v : Int) : HState × List Output :=
  match first with
  | .leftVol => (s, [.cont .leftVolume ((v : ℚ) / 2)])
  | .rightVol => (s, [.cont .rightVolume ((v : ℚ) / 2)])
  | .leftPlay => (s, [.button .leftBtnPlay true])
  | .rightPlay => (s, [.button .rightBtnPlay true])
  | .xfader => (s, [.cont .crossfade (((v : ℚ) + 1) / 2)])
  | .leftPitchDown => (s, [.button .leftBtnPitchBendMinus true])
  | .leftPitchUp => (s, [.button .leftBtnPitchBendPlus true])
  | .rightPitchDown => (s, [.button .rightBtnPitchBendMinus true])
  | .rightPitchUp => (s, [.button .rightBtnPitchBendPlus true])
  | .leftSkipBack => (s, [.button .leftBtnTrackPrev true])
  | .leftSkipForward => (s, [.button .leftBtnTrackNext true])
  | .rightSkipBack => (s, [.button .rightBtnTrackPrev true])
  | .rightSkipForward => (s, [.button .rightBtnTrackNext true])
  | .rightHigh => (s, [.cont .rightTreble ((v.tdiv 2 : Int) : ℚ)])
  | .rightMid => (s, [.cont .rightMiddle ((v.tdiv 2 : Int) : ℚ)])
  | .rightBass => (s, [.cont .rightBass ((v.tdiv 2 : Int) : ℚ)])
  | .leftHigh => (s, [.cont .leftTreble ((v.tdiv 2 : Int) : ℚ)])
  | .leftMid => (s, [.cont .leftMiddle ((v.tdiv 2 : Int) : ℚ)])
  | .leftBass => (s, [.cont .leftBass ((v.tdiv 2 : Int) : ℚ)])
  | .leftCue =>
      (s, [.button (if s.leftPlayProxy then .leftBtnCueAndStop else .leftBtnCue) true])
  | .rightCue =>
      (s, [.button (if s.rightPlayProxy then .rightBtnCueAndStop else .rightBtnCue) true])
  | .leftMasterTempo =>
      ({ s with masterTempoLeft := !s.masterTempoLeft }, [.cont .leftBtnMasterTempo 0])
  | .rightMasterTempo =>
      ({ s with masterTempoRight := !s.masterTempoRight }, [.cont .rightBtnMasterTempo 0])
  | .rightMonitor =>
      ({ s with hpRight := !s.hpRight }, [.button .rightBtnHeadphone true])
  | .leftMonitor =>
      ({ s with hpLeft := !s.hpLeft }, [.button .leftBtnHeadphone true])
  | .c103 =>
      if v = 4 then
        let s1 := { s with headphoneSel := HSel.split }
        let p1 : HState × List Output :=
          if s1.hpRight then ({ s1 with hpRight := !s1.hpRight }, [.button .rightBtnHeadphone true])
          else (s1, [])
        let p2 : HState × List Output :=
          if p1.1.hpLeft then ({ p1.1 with hpLeft := !p1.1.hpLeft }, [.button .leftBtnHeadphone true])
          else (p1.1, [])
        (p2.1, p1.2 ++ p2.2)
      else (s, [])
  | .c102 =>
      if v = 8 then
        let s1 := { s with headphoneSel := HSel.mix }
        let p1 : HState × List Output :=
          if !s1.hpRight then ({ s1 with hpRight := !s1.hpRight }, [.button .rightBtnHeadphone true])
          else (s1, [])
        let p2 : HState × List Output :=
          if !p1.1.hpLeft then ({ p1.1 with hpLeft := !p1.1.hpLeft }, [.button .leftBtnHeadphone true])
          else (p1.1, [])
        (p2.1, p1.2 ++ p2.2)
      else (s, [])
  | .c101 =>
      if v = 2 ∧ (s.headphoneSel = HSel.deckA ∨ s.headphoneSel = HSel.mix) then
        let s1 := { s with headphoneSel := HSel.deckB }
        let p1 : HState × List Output :=
          if !s1.hpRight then ({ s1 with hpRight := !s1.hpRight }, [.button .rightBtnHeadphone true])
          else (s1, [])
        let p2 : HState × List Output :=
          if p1.1.hpLeft then ({ p1.1 with hpLeft := !p1.1.hpLeft }, [.button .leftBtnHeadphone true])
          else (p1.1, [])
        (p2.1, p1.2 ++ p2.2)
      else (s, [])
  | .c100 =>
      if v = 1 ∧ s.headphoneSel = HSel.deckB then
        let s1 := { s with headphoneSel := HSel.deckA }
        let p1 : HState × List Output :=
          if s1.hpRight then ({ s1 with hpRight := !s1.hpRight }, [.button .rightBtnHeadphone true])
          else (s1, [])
        let p2 : HState × List Output :=
          if !p1.1.hpLeft then ({ p1.1 with hpLeft := !p1.1.hpLeft }, [.button .leftBtnHeadphone true])
          else (p1.1, [])
        (p2.1, p1.2 ++ p2.2)
      else (s, [])
  | .leftJog =>
      let u := jogUnwrap s.jogLeftOld v
      ({ s with jogLeftOld := u.2, jogLeftAcc := s.jogLeftAcc + u.1 }, [])
  | .rightJog =>
      let u := jogUnwrap s.jogRightOld v
      ({ s with jogRightOld := u.2, jogRightAcc := s.jogRightAcc + u.1 }, [])
  | .leftPitch =>
      let r := pitchChangeLegacy v s.pitchLeft s.pitchOffsetLeft
      ({ s with pitchLeft := r.2.1, pitchOffsetLeft := r.2.2 }, [.cont .leftPitch r.1])
  | .rightPitch =>
      let r := pitchChangeLegacy v s.pitchRight s.pitchOffsetRight
      ({ s with pitchRight := r.2.1, pitchOffsetRight := r.2.2 }, [.cont .rightPitch r.1])
  | .leftAutoBeat => (s, [.button .leftBtnAutobeat false])
  | .rightAutoBeat => (s, [.button .rightBtnAutobeat false])
  | _ => (s, [])

/-- The libdjconsole `HerculesLinux::consoleEvent(int first, int second)`
(compiled with `__THOMAS_HERC__`), as a state transition emitting the list of
writes in program order:

    if (second == 0) { djc->Leds.setBit(first, false); return; }
    if (first != 0) {
      bool ledIsOn = (second == 0 ? false : true);
      int led = 0;
      switch(first) { …led/calibration selection… }
      switch(first) { …sink-write dispatch… }
      if (led != 0) djc->Leds.setBit(led, ledIsOn);
    }

Unrecognized ids only hit the `default:` branch, which logs via `qDebug` (not
modelled) and does nothing else. -/
def consoleEvent (s : HState) (first : ControlId) (second : Int) : HState × List Output :=
  if second = 0 then (s, [.led (.ofCtlId first) false])
  else if first = ControlId.zero then (s, [])
  else
    let ledIsOn : Bool := second != 0
    let f := firstSwitch s first
    let g := secondSwitch f.1 first second
    (g.1, f.2.1 ++ g.2 ++
      (match f.2.2 with
       | some c => [.led (.ofCtlId c) ledIsOn]
       | none => []))

/-- Modelled from the spec: the `Rotary` jog filter (`m_pRotaryLeft` /
`m_pRotaryRight`, class `Rotary` of `rotary.cpp`) is not among the provided
sources; spec §4.2 describes it as a bounded moving average over the last N
samples scaled by a calibration divisor.  The buffer holds the last
`buffer.length` samples. -/
structure Rotary where
  buffer : List ℚ
  calibration : ℚ
deriving DecidableEq

/-- Modelled from the spec: `Rotary::filter` pushes the new sample into the
bounded history and returns the sum of the history scaled by the calibration
divisor, together with the updated filter state. -/
def Rotary.filter (r : Rotary) (v : ℚ) : ℚ × Rotary :=
  let buf := r.buffer.drop 1 ++ [v]
  (buf.sum / r.calibration, { r with buffer := buf })

/-- `EV_ABS` event codes of the evdev `HerculesLinux::getNextEvent`
(`kiHerculesLeftTreble`, …, from headers not in the provided sources;
distinctness of the `switch` case labels is again captured by the inductive
representation, with `other n` for any unmatched code). -/
inductive AbsCode where
  | leftTreble | leftMiddle | leftBass | leftVolume | leftPitch | leftJog
  | rightTreble | rightMiddle | rightBass | rightVolume | rightPitch | rightJog
  | crossfade
  | other (n : Int)
deriving DecidableEq

/-- Mutable driver state touched by the `EV_ABS` branch of the evdev
`HerculesLinux::getNextEvent`.  In this variant `m_iJogLeft`/`m_iJogRight`
store the previous raw jog value (−1 at construction) and the revised
`PitchChange` state is `m_iPitchLeft`/`m_iPitchOffsetLeft` (127 and −9999 at
construction). -/
structure EvState where
  jogLeft : Int
  jogRight : Int
  pitchLeft : Int
  pitchRight : Int
  pitchOffsetLeft : Int
  pitchOffsetRight : Int
  leftVolumeOld : ℚ
  rightVolumeOld : ℚ
  rotaryLeft : Rotary
  rotaryRight : Rotary
deriving DecidableEq

/-- GED's formula computed before the `switch` of the evdev handler:
`(ev.value+1)/(4. - ((ev.value>((7/8.)*256))*((ev.value-((7/8.)*256))*1/16.)))`
(with `(7/8.)*256 = 224` exactly; the boolean factor is 0 or 1). -/
def gedValue (x : Int) : ℚ :=
  ((x : ℚ) + 1) /
    (4 - ((if (224 : ℚ) < (x : ℚ) then (1 : ℚ) else 0) * (((x : ℚ) - 224) * 1 / 16)))

/-- The `EV_ABS` dispatch of the evdev `HerculesLinux::getNextEvent`
(lines 731–801): treble/middle/bass send GED's formula value, volumes send
`ev.value/2` (also caching it), pitch routes through the revised
`PitchChange`, the jogs route the unwrapped delta through the rotary filter
(scaled by 1/16), and the crossfader sends `(ev.value+1)/2`; an unmatched code
does nothing. -/
def getNextEventAbs (s : EvState) (code : AbsCode) (v : Int) : EvState × List Output :=
  match code with
  | .leftTreble => (s, [.cont .leftTreble (gedValue v)])
  | .leftMiddle => (s, [.cont .leftMiddle (gedValue v)])
  | .leftBass => (s, [.cont .leftBass (gedValue v)])
  | .leftVolume =>
      ({ s with leftVolumeOld := (v : ℚ) / 2 }, [.cont .leftVolume ((v : ℚ) / 2)])
  | .leftPitch =>
      let r := pitchChange v s.pitchLeft s.pitchOffsetLeft
      ({ s with pitchLeft := r.2.1, pitchOffsetLeft := r.2.2 }, [.cont .leftPitch r.1])
  | .leftJog =>
      let u := jogUnwrap s.jogLeft v
      let f := s.rotaryLeft.filter ((u.1 : ℚ) / 16)
      ({ s with jogLeft := u.2, rotaryLeft := f.2 }, [.cont .leftJog f.1])
  | .rightTreble => (s, [.cont .rightTreble (gedValue v)])
  | .rightMiddle => (s, [.cont .rightMiddle (gedValue v)])
  | .rightBass => (s, [.cont .rightBass (gedValue v)])
  | .rightVolume =>
      ({ s with rightVolumeOld := (v : ℚ) / 2 }, [.cont .rightVolume ((v : ℚ) / 2)])
  | .rightPitch =>
      let r := pitchChange v s.pitchRight s.pitchOffsetRight
      ({ s with pitchRight := r.2.1, pitchOffsetRight := r.2.2 }, [.cont .rightPitch r.1])
  | .rightJog =>
      let u := jogUnwrap s.jogRight v
      let f := s.rotaryRight.filter ((u.1 : ℚ) / 16)
      ({ s with jogRight := u.2, rotaryRight := f.2 }, [.cont .rightJog f.1])
  | .crossfade => (s, [.cont .crossfade (((v : ℚ) + 1) / 2)])
  | .other _ => (s, [])

/-- The HeadphoneDeckSelector transition function transcribed from the
specification (§4.4) and the claim: (103,4) → SPLIT from any state,
(102,8) → MIX from any state, (101,2) → DECK_B only from DECK_A or MIX,
(100,1) → DECK_A only from DECK_B, and any other (control-id, value) pair is a
no-op for the machine. -/
def headphoneSpecStep (sel : HSel) (first : ControlId) (v : Int) : HSel :=
  if first = ControlId.c103 ∧ v = 4 then HSel.split
  else if first = ControlId.c102 ∧ v = 8 then HSel.mix
  else if first = ControlId.c101 ∧ v = 2 ∧ (sel = HSel.deckA ∨ sel = HSel.mix) then HSel.deckB
  else if first = ControlId.c100 ∧ v = 1 ∧ sel = HSel.deckB then HSel.deckA
  else sel

/-- A concrete driver state matching the libdjconsole constructor
(`m_dJogLeftOld = m_dJogRightOld = -1`, accumulators 0, `m_iPitchLeft =
m_iPitchRight = -1`, headphone booleans off, default calibration 64); the
pitch offsets — left uninitialized by that constructor — and the selector are
fixed arbitrarily here, as are the external play proxies. -/
def hInit : HState :=
  { jogLeftOld := -1, jogRightOld := -1, jogLeftAcc := 0, jogRightAcc := 0,
    pitchLeft := -1, pitchRight := -1, pitchOffsetLeft := 0, pitchOffsetRight := 0,
    headphoneSel := HSel.split, hpLeft := false, hpRight := false,
    masterTempoLeft := false, masterTempoRight := false,
    calibLeft := 64, calibRight := 64,
    leftPlayProxy := false, rightPlayProxy := false }

/-- A concrete evdev driver state matching the non-libdjconsole constructor
(`m_iJogLeft = m_iJogRight = -1`, `m_iPitchLeft = m_iPitchRight = 127`,
`m_iPitchOffsetLeft = m_iPitchOffsetRight = -9999`), with the rotary filters at
the default length-4 zero history and calibration 64. -/
def evInit : EvState :=
  { jogLeft := -1, jogRight := -1, pitchLeft := 127, pitchRight := 127,
    pitchOffsetLeft := -9999, pitchOffsetRight := -9999,
    leftVolumeOld := 0, rightVolumeOld := 0,
    rotaryLeft := { buffer := [0, 0, 0, 0], calibration := 64 },
    rotaryRight := { buffer := [0, 0, 0, 0], calibration := 64 } }

/-- C2: The jog-wheel delta unwrapping behaves exactly as specified for every
event: on a negative (sentinel-from-construction) stored previous the delta is
0, otherwise it is current minus previous corrected by +256 below −200 and by
−256 above 200; the stored previous (second component) is set to the current
raw value unconditionally. -/
theorem jogUnwrap_spec :
    ∀ p c : Int, jogUnwrap p c = unwrapSpec (if 0 ≤ p then some p else none) c := by
  intro p c
  by_cases h : 0 ≤ p <;> simp [jogUnwrap, unwrapSpec, h]

/-- C7: unwrapping previous 5 with current 250 gives raw delta 245 and
corrected delta −11; unwrapping previous 250 with current 5 gives raw delta
−245 and corrected delta 11. -/
theorem jogUnwrap_examples :
    ((250 : Int) - 5 = 245) ∧ jogUnwrap 5 250 = (-11, 250) ∧
      ((5 : Int) - 250 = -245) ∧ jogUnwrap 250 5 = (11, 5) := by
  refine ⟨by decide, ?_, by decide, ?_⟩ <;> decide

/-- C3 (counterexample): with previous 200 and current 0 — both in [0, 255] —
the corrected delta is exactly −200, which neither lies in the open-below
interval (−200, 200] nor has absolute value at most 128. -/
theorem jogUnwrap_range_counterexample :
    (jogUnwrap 200 0).1 = -200 ∧
      ¬(-200 < (jogUnwrap 200 0).1) ∧ ¬((jogUnwrap 200 0).1.natAbs ≤ 128) := by
  refine ⟨by decide, by decide, by decide⟩

/-- C3 (amended): for every previous and current value in [0, 255], the
corrected delta produced by the jog delta unwrapping lies in the closed
interval [−200, 200], and its absolute value is at most 200. -/
theorem jogUnwrap_range_amended :
    ∀ p c : Int, 0 ≤ p → p ≤ 255 → 0 ≤ c → c ≤ 255 →
      -200 ≤ (jogUnwrap p c).1 ∧ (jogUnwrap p c).1 ≤ 200 ∧
        (jogUnwrap p c).1.natAbs ≤ 200 := by
  intro p c hp hp' hc hc'
  have h0 : 0 ≤ p := hp
  simp only [jogUnwrap, if_pos h0]
  split
  · refine ⟨by omega, by omega, ?_⟩
    omega
  · split
    · refine ⟨by omega, by omega, ?_⟩
      omega
    · refine ⟨by omega, by omega, ?_⟩
      omega

/-- Witness for `jogUnwrap_range_amended` at previous 5, current 250. -/
theorem jogUnwrap_range_amended_witness :
    -200 ≤ (jogUnwrap 5 250).1 ∧ (jogUnwrap 5 250).1 ≤ 200 ∧
      (jogUnwrap 5 250).1.natAbs ≤ 200 :=
  jogUnwrap_range_amended 5 250 (by decide) (by decide) (by decide) (by decide)

/-- C1: the revised PitchOffsetTracker update equals, for every event and
state, the specified behaviour: sentinel consumption (offset = 127 − raw when
offset is −9999), then at most one of the four rollover rules fires — the first
whose guard holds, in the listed order, hence mutually exclusive per event —
then previous is set to raw unconditionally, and the returned pitch percent is
`((previous + offset) − 0.5) / 2`. -/
theorem pitchChange_eq_spec :
    ∀ ev prev off : Int, pitchChange ev prev off = pitchChangeSpec ev prev off := by
  intro ev prev off
  simp only [pitchChange, pitchChangeSpec, firedRule, ruleNewOffset]
  split_ifs <;> rfl

/-- C8: a first pitch event with raw value 64 while the offset holds the −9999
sentinel (whatever the stored previous value is) sets the offset to
127 − 64 = 63, fires none of the four rollover rules, and returns pitch
percent ((64 + 63) − 0.5) / 2 = 63.25. -/
theorem pitchChange_init64 :
    ∀ prev : Int,
      pitchChange 64 prev (-9999) = ((253 : ℚ)/4, 64, 63) ∧
        firedRule 64 prev 63 = none := by
  intro prev
  constructor
  · simp only [pitchChange]
    split_ifs <;> first | (exfalso; omega) | norm_num
  · simp only [firedRule]
    split_ifs <;> first | (exfalso; omega) | rfl

/-- C4: for every event and every current state, the headphone selector stored
in the driver state transitions exactly as the specified state machine:
(103,4) → SPLIT and (102,8) → MIX from any state, (101,2) → DECK_B only from
DECK_A or MIX, (100,1) → DECK_A only from DECK_B (in particular (100,1) in MIX
changes nothing), and every other (control-id, value) pair leaves the selector
unchanged. -/
theorem consoleEvent_headphoneSel_spec :
    ∀ (s : HState) (first : ControlId) (v : Int),
      (consoleEvent s first v).1.headphoneSel = headphoneSpecStep s.headphoneSel first v := by
  intro s first v
  by_cases hv : v = 0
  · subst hv
    cases first <;> simp [consoleEvent, headphoneSpecStep]
  · cases first <;>
      simp only [consoleEvent, firstSwitch, secondSwitch, headphoneSpecStep, hv,
        if_false, if_neg, reduceCtorEq, false_and, and_false, if_neg] <;>
      split_ifs <;>
      simp_all

/-- C5: after every accepted headphone-selector transition, whatever the prior
values of the two headphone-enable booleans, the booleans equal the target
state's required configuration (SPLIT: both off; MIX: both on; DECK_A: left on
and right off; DECK_B: right on and left off); the handler's outputs for the
event are exactly one button-edge sink write per boolean that differed from
that configuration (right checked first, then left), and nothing else. -/
theorem consoleEvent_headphone_toggle :
    (∀ s : HState,
      (consoleEvent s ControlId.c103 4).1.hpLeft = false ∧
      (consoleEvent s ControlId.c103 4).1.hpRight = false ∧
      (consoleEvent s ControlId.c103 4).2 =
        (if s.hpRight then [Output.button Ctl.rightBtnHeadphone true] else []) ++
          (if s.hpLeft then [Output.button Ctl.leftBtnHeadphone true] else [])) ∧
    (∀ s : HState,
      (consoleEvent s ControlId.c102 8).1.hpLeft = true ∧
      (consoleEvent s ControlId.c102 8).1.hpRight = true ∧
      (consoleEvent s ControlId.c102 8).2 =
        (if !s.hpRight then [Output.button Ctl.rightBtnHeadphone true] else []) ++
          (if !s.hpLeft then [Output.button Ctl.leftBtnHeadphone true] else [])) ∧
    (∀ s : HState, s.headphoneSel = HSel.deckA ∨ s.headphoneSel = HSel.mix →
      (consoleEvent s ControlId.c101 2).1.hpLeft = false ∧
      (consoleEvent s ControlId.c101 2).1.hpRight = true ∧
      (consoleEvent s ControlId.c101 2).2 =
        (if !s.hpRight then [Output.button Ctl.rightBtnHeadphone true] else []) ++
          (if s.hpLeft then [Output.button Ctl.leftBtnHeadphone true] else [])) ∧
    (∀ s : HState, s.headphoneSel = HSel.deckB →
      (consoleEvent s ControlId.c100 1).1.hpLeft = true ∧
      (consoleEvent s ControlId.c100 1).1.hpRight = false ∧
      (consoleEvent s ControlId.c100 1).2 =
        (if s.hpRight then [Output.button Ctl.rightBtnHeadphone true] else []) ++
          (if !s.hpLeft then [Output.button Ctl.leftBtnHeadphone true] else [])) := by
  refine ⟨fun s => ?_, fun s => ?_, fun s h => ?_, fun s h => ?_⟩ <;>
    simp only [consoleEvent, firstSwitch, secondSwitch] <;>
    split_ifs <;>
    simp_all

/-- Witness for `consoleEvent_headphone_toggle`: from MIX with both booleans
on, (101,2) turns the left boolean off with exactly one button write, and from
DECK_B with only the right boolean on, (100,1) flips both booleans with two
button writes. -/
theorem consoleEvent_headphone_toggle_witness :
    ((consoleEvent { hInit with headphoneSel := HSel.mix, hpLeft := true, hpRight := true }
        ControlId.c101 2).1.hpLeft = false ∧
      (consoleEvent { hInit with headphoneSel := HSel.mix, hpLeft := true, hpRight := true }
        ControlId.c101 2).1.hpRight = true ∧
      (consoleEvent { hInit with headphoneSel := HSel.mix, hpLeft := true, hpRight := true }
        ControlId.c101 2).2 =
        (if !true then [Output.button Ctl.rightBtnHeadphone true] else []) ++
          (if true then [Output.button Ctl.leftBtnHeadphone true] else [])) ∧
    ((consoleEvent { hInit with headphoneSel := HSel.deckB, hpRight := true }
        ControlId.c100 1).1.hpLeft = true ∧
      (consoleEvent { hInit with headphoneSel := HSel.deckB, hpRight := true }
        ControlId.c100 1).1.hpRight = false ∧
      (consoleEvent { hInit with headphoneSel := HSel.deckB, hpRight := true }
        ControlId.c100 1).2 =
        (if true then [Output.button Ctl.rightBtnHeadphone true] else []) ++
          (if !false then [Output.button Ctl.leftBtnHeadphone true] else [])) :=
  ⟨consoleEvent_headphone_toggle.2.2.1
      { hInit with headphoneSel := HSel.mix, hpLeft := true, hpRight := true } (Or.inr rfl),
    consoleEvent_headphone_toggle.2.2.2
      { hInit with headphoneSel := HSel.deckB, hpRight := true } rfl⟩

/-- C6: dispatching an event whose control id matches no case of the handler
is dropped: it produces zero continuous-sink and zero button-sink writes and
leaves the entire driver state — jog previous values and accumulators, pitch
previous/offset, headphone selector and booleans — unchanged; dispatching the
same unrecognized control id twice produces zero sink writes both times and
leaves all state unchanged. -/
theorem consoleEvent_unrecognized_noop :
    ∀ (s : HState) (n : Int) (v : Int),
      (consoleEvent s (ControlId.other n) v).1 = s ∧
      sinkWrites (consoleEvent s (ControlId.other n) v).2 = [] ∧
      (consoleEvent (consoleEvent s (ControlId.other n) v).1 (ControlId.other n) v).1 = s ∧
      sinkWrites
        (consoleEvent (consoleEvent s (ControlId.other n) v).1 (ControlId.other n) v).2 = [] := by
  intro s n v
  by_cases hv : v = 0 <;>
    simp [consoleEvent, firstSwitch, secondSwitch, sinkWrites, Output.isCont, Output.isButton, hv]

/-- C9 (counterexample): in the libdjconsole handler a volume or crossfader
event with raw value 0 — a value in [0, 255] — produces zero continuous-sink
writes (the value-0 early return emits only an LED update), not exactly one. -/
theorem volume_zero_counterexample :
    contWrites (consoleEvent hInit ControlId.leftVol 0).2 = [] ∧
      contWrites (consoleEvent hInit ControlId.xfader 0).2 = [] ∧
      (consoleEvent hInit ControlId.leftVol 0).2 =
        [Output.led (Led.ofCtlId ControlId.leftVol) false] := by
  refine ⟨by decide, by decide, by decide⟩

/-- C9 (amended): for every raw value v in [1, 255] the libdjconsole handler
emits, for a volume event, exactly one continuous-sink write with value v/2
and, for a crossfader event, exactly one with value (v+1)/2; the evdev handler
does the same for every v in [0, 255] (value-0 events never reach the
libdjconsole cases because of its value-0 early return). -/
theorem volume_crossfade_scaling_amended :
    (∀ (s : HState) (v : Int), 1 ≤ v → v ≤ 255 →
      (consoleEvent s ControlId.leftVol v).2 = [Output.cont Ctl.leftVolume ((v : ℚ) / 2)] ∧
      (consoleEvent s ControlId.rightVol v).2 = [Output.cont Ctl.rightVolume ((v : ℚ) / 2)] ∧
      (consoleEvent s ControlId.xfader v).2 =
        [Output.cont Ctl.crossfade (((v : ℚ) + 1) / 2)]) ∧
    (∀ (s : EvState) (v : Int), 0 ≤ v → v ≤ 255 →
      (getNextEventAbs s AbsCode.leftVolume v).2 = [Output.cont Ctl.leftVolume ((v : ℚ) / 2)] ∧
      (getNextEventAbs s AbsCode.rightVolume v).2 = [Output.cont Ctl.rightVolume ((v : ℚ) / 2)] ∧
      (getNextEventAbs s AbsCode.crossfade v).2 =
        [Output.cont Ctl.crossfade (((v : ℚ) + 1) / 2)]) := by
  constructor
  · intro s v h1 h2
    have hv : ¬v = 0 := by omega
    refine ⟨?_, ?_, ?_⟩ <;> simp [consoleEvent, firstSwitch, secondSwitch, hv]
  · intro s v h1 h2
    refine ⟨rfl, rfl, rfl⟩

/-- Witness for `volume_crossfade_scaling_amended` at raw value 8 in the
libdjconsole handler and raw value 0 in the evdev handler. -/
theorem volume_crossfade_scaling_amended_witness :
    ((consoleEvent hInit ControlId.leftVol 8).2 =
        [Output.cont Ctl.leftVolume ((8 : ℚ) / 2)] ∧
      (consoleEvent hInit ControlId.rightVol 8).2 =
        [Output.cont Ctl.rightVolume ((8 : ℚ) / 2)] ∧
      (consoleEvent hInit ControlId.xfader 8).2 =
        [Output.cont Ctl.crossfade (((8 : ℚ) + 1) / 2)]) ∧
    ((getNextEventAbs evInit AbsCode.leftVolume 0).2 =
        [Output.cont Ctl.leftVolume ((0 : ℚ) / 2)] ∧
      (getNextEventAbs evInit AbsCode.rightVolume 0).2 =
        [Output.cont Ctl.rightVolume ((0 : ℚ) / 2)] ∧
      (getNextEventAbs evInit AbsCode.crossfade 0).2 =
        [Output.cont Ctl.crossfade (((0 : ℚ) + 1) / 2)]) :=
  ⟨volume_crossfade_scaling_amended.1 hInit 8 (by decide) (by decide),
    volume_crossfade_scaling_amended.2 evInit 0 (by decide) (by decide)⟩

/-- C10: in the libdjconsole handler, every event with value 0 returns after
exactly one LED update (no sink write, no state change); every event with
control id 0 and nonzero value is ignored entirely (no output at all, no state
change); and the handler never emits a release (pressed = false) button edge
except to the two auto-beat controls. -/
theorem consoleEvent_zero_value_and_id :
    ∀ (s : HState) (first : ControlId) (v : Int),
      consoleEvent s first 0 = (s, [Output.led (Led.ofCtlId first) false]) ∧
      consoleEvent s ControlId.zero v =
        (s, if v = 0 then [Output.led (Led.ofCtlId ControlId.zero) false] else []) ∧
      (∀ c : Ctl, Output.button c false ∈ (consoleEvent s first v).2 →
        c = Ctl.leftBtnAutobeat ∨ c = Ctl.rightBtnAutobeat) := by
  intro s first v
  refine ⟨by simp [consoleEvent], ?_, ?_⟩
  · by_cases hv : v = 0 <;> simp [consoleEvent, hv]
  · intro c hc
    by_cases hv : v = 0
    · subst hv
      simp [consoleEvent] at hc
    · revert hc
      cases first <;>
        simp only [consoleEvent, firstSwitch, secondSwitch, hv, if_neg, reduceCtorEq,
          if_false] <;>
        (try split_ifs) <;>
        simp_all

/-- Witness for `consoleEvent_zero_value_and_id`: at the concrete event
(LEFT_AUTO_BEAT, 1) from the constructor state, the handler does emit a
release button edge, and it targets an auto-beat control. -/
theorem consoleEvent_zero_value_and_id_witness :
    Ctl.leftBtnAutobeat = Ctl.leftBtnAutobeat ∨ Ctl.leftBtnAutobeat = Ctl.rightBtnAutobeat :=
  (consoleEvent_zero_value_and_id hInit ControlId.leftAutoBeat 1).2.2
    Ctl.leftBtnAutobeat (by decide)
